import Mathlib

/-!
# Verification of the `@metyatech/ai-quota` result-normalization and classification layer

This file gives a shallow embedding, in Lean 4, of the quota/rate-limit
classification core of the `@metyatech/ai-quota` TypeScript package:

* the raw rate-limit window normalizer and the short/long slot classifier
  (`normalizeRateLimitWindow`, `rateLimitSnapshotToStatus` in the codex module),
* the per-provider fetch-outcome classification of `fetchAllRateLimits`
  (`src/index.ts`), including `classifyError`, `statusForReason` and
  `displayForFailure`,
* the human row builder for codex results (`buildCodexRow`,
  `compareMostConstraining`, `deriveStatusFromUsedPercent`),
* the global summary aggregation (critical / warning / healthy), and
* the duration formatter `formatResetIn` (`src/utils.ts`).

JavaScript numbers are modelled as rationals, with a separate marker for
non-finite values where the code distinguishes `typeof x === "number"` from
`Number.isFinite(x)`.  Timestamps are modelled as integer milliseconds since
the epoch (the value of `Date.prototype.getTime`).  Effects the code performs
(reading the clock via `Date.now()` / `new Date()`) are made explicit `now`
parameters.  Thrown exceptions are modelled as an explicit outcome type.
-/

namespace AiQuota

/-- A JavaScript number as observed by the classification layer: either a
finite value (modelled as a rational) or a non-finite one (`NaN`, `±Infinity`).
The code distinguishes `typeof x === "number"` (any `JsNum`) from
`Number.isFinite(x)` (only `JsNum.fin`). -/
inductive JsNum where
  | fin (q : ℚ)
  | nonfin
deriving DecidableEq, Repr

/-- `true` exactly when an optional field holds a finite JavaScript number
(`typeof x === "number" && Number.isFinite(x)`). -/
def isFiniteNum : Option JsNum → Bool
  | some (JsNum.fin _) => true
  | _ => false

/-- JavaScript `Math.round`: round half toward positive infinity. -/
def jsRound (q : ℚ) : ℤ := ⌊q + 1/2⌋

/-- Truncation toward zero, as applied by the `Date` constructor to a
fractional milliseconds argument (`ToIntegerOrInfinity`). -/
def jsTrunc (q : ℚ) : ℤ := if 0 ≤ q then ⌊q⌋ else ⌈q⌉

/-- Does the first character list start with the second? -/
def charsStartWith : List Char → List Char → Bool
  | _, [] => true
  | [], _ :: _ => false
  | a :: as, b :: bs => a = b && charsStartWith as bs

/-- Does the first character list contain the second as a contiguous run? -/
def charsContain (hay needle : List Char) : Bool :=
  match hay with
  | [] => needle.isEmpty
  | _ :: t => charsStartWith hay needle || charsContain t needle

/-- JavaScript `String.prototype.includes` on our string model. -/
def jsIncludes (hay needle : String) : Bool := charsContain hay.toList needle.toList

/-- JavaScript `Array.prototype.join(", ")`. -/
def joinComma : List String → String
  | [] => ""
  | [x] => x
  | x :: y :: rest => x ++ ", " ++ joinComma (y :: rest)

-- ---------------------------------------------------------------------------
-- Shared types (`src/types.ts`)
-- ---------------------------------------------------------------------------

/-- `RateLimitWindow` (`src/types.ts`): one vendor-shaped rate-limit window,
with all accepted field spellings.  Absent fields, `null` fields and fields of
non-number type are all modelled as `none` (none of them passes a
`typeof x === "number"` check). -/
structure RateLimitWindow where
  usedPercent : Option JsNum := none
  used_percent : Option JsNum := none
  windowDurationMins : Option JsNum := none
  window_minutes : Option JsNum := none
  windowMinutes : Option JsNum := none
  resetsAt : Option JsNum := none
  resets_at : Option JsNum := none
deriving DecidableEq, Repr

/-- `RateLimitSnapshot` (`src/types.ts`): primary/secondary windows plus
credit and plan metadata. -/
structure RateLimitSnapshot where
  primary : Option RateLimitWindow := none
  secondary : Option RateLimitWindow := none
  credits : Option JsNum := none
  planType : Option String := none
  plan_type : Option String := none
deriving DecidableEq, Repr

/-- `ClaudeUsageBucket` (`src/types.ts`).  `resets_at` is an ISO-8601 string
in the source; it is modelled here as the epoch-millisecond timestamp the
code obtains from it via `new Date(...)`. -/
structure ClaudeUsageBucket where
  utilization : ℚ
  resets_at : ℤ
deriving DecidableEq, Repr

/-- The `extra_usage` record of `ClaudeUsageData` (`src/types.ts`). -/
structure ClaudeExtraUsage where
  is_enabled : Bool
  monthly_limit : Option ℚ
  used_credits : ℚ
  utilization : ℚ
deriving DecidableEq, Repr

/-- `ClaudeUsageData` (`src/types.ts`). -/
structure ClaudeUsageData where
  five_hour : Option ClaudeUsageBucket
  seven_day : Option ClaudeUsageBucket
  seven_day_sonnet : Option ClaudeUsageBucket
  extra_usage : Option ClaudeExtraUsage
deriving DecidableEq, Repr

/-- `GeminiModelUsage` (`src/types.ts`); `resetAt` as epoch milliseconds. -/
structure GeminiModelUsage where
  limit : ℚ
  usage : ℚ
  resetAt : ℤ
deriving DecidableEq, Repr

/-- `GeminiUsage` (`src/types.ts`): a dynamic map from model id to usage,
modelled as an association list in `Object.entries` order.  Entries whose
value is `undefined` are `none` (the code skips them with `if (!usage)`). -/
def GeminiUsage := List (String × Option GeminiModelUsage)
deriving DecidableEq

/-- `CopilotUsage` (`src/types.ts`); `resetAt` as epoch milliseconds.  The
`raw : unknown` debugging field is not modelled (nothing in the embedded code
reads it). -/
structure CopilotUsage where
  percentRemaining : ℚ
  resetAt : ℤ
  entitlement : ℚ
  overageUsed : ℚ
  overageEnabled : Bool
  source : String
deriving DecidableEq, Repr

/-- `AgentStatus` (`src/types.ts`): `"ok" | "no-data" | "error"`. -/
inductive AgentStatus where
  | ok
  | noData
  | error
deriving DecidableEq, Repr

/-- The closed set of reason codes.  `src/types.ts` declares six of these in
`ErrorReason`, but the implementation also produces `token_expired`,
`parse_error` and `endpoint_changed` (e.g. `src/index.ts` line 104,
`src/claude.ts` line 70, `src/gemini.ts` lines 568-571), matching the nine
reason codes of the specification. -/
inductive ErrorReason where
  | auth_failed
  | network_error
  | api_error
  | no_credentials
  | token_expired
  | timeout
  | parse_error
  | endpoint_changed
  | unknown
deriving DecidableEq, Repr

/-- The string literal for each reason code. -/
def ErrorReason.toDisplayString : ErrorReason → String
  | .auth_failed => "auth_failed"
  | .network_error => "network_error"
  | .api_error => "api_error"
  | .no_credentials => "no_credentials"
  | .token_expired => "token_expired"
  | .timeout => "timeout"
  | .parse_error => "parse_error"
  | .endpoint_changed => "endpoint_changed"
  | .unknown => "unknown"

/-- `QuotaResult<T>` (`src/types.ts`).  The optional `rawError : unknown`
debugging field is not modelled (nothing in the embedded code reads it). -/
structure QuotaResult (α : Type) where
  status : AgentStatus
  data : Option α
  reason : Option ErrorReason
  error : Option String
  display : String
deriving DecidableEq, Repr

/-- The status of a `GlobalSummary` (`src/types.ts`). -/
inductive SummaryStatus where
  | healthy
  | warning
  | critical
deriving DecidableEq, Repr

/-- `GlobalSummary` (`src/types.ts`). -/
structure GlobalSummary where
  status : SummaryStatus
  message : String
deriving DecidableEq, Repr

-- ---------------------------------------------------------------------------
-- Duration formatting (`src/utils.ts`, `formatResetIn`)
-- ---------------------------------------------------------------------------

/-- `formatResetIn` (`src/utils.ts` lines 5-14).  The source reads the clock
with `Date.now()`; following the package changelog ("Refactored
`formatResetIn` to accept an optional reference date, making it pure"), the
reference time is an explicit second argument here.  `resetAt` and `now` are
epoch milliseconds. -/
def formatResetIn (resetAt now : ℤ) : String :=
  let diffMs := resetAt - now
  if diffMs ≤ 0 then "already reset"
  else
    let totalMinutes := diffMs.fdiv 60000
    let hours := totalMinutes.fdiv 60
    let minutes := totalMinutes.emod 60
    if hours = 0 then toString minutes ++ "m"
    else if minutes = 0 then toString hours ++ "h"
    else toString hours ++ "h " ++ toString minutes ++ "m"

-- ---------------------------------------------------------------------------
-- Codex window normalization and slot classification
-- (`src/gemini.ts` lines 1050-1173, the codex module)
-- ---------------------------------------------------------------------------

/-- The slot keys of `UsageWindowKey` (`"fiveHour" | "weekly"`). -/
inductive UsageWindowKey where
  | fiveHour
  | weekly
deriving DecidableEq, Repr

/-- `UsageWindow` of the codex module.  `resetAt` is the epoch-millisecond
time value of the `Date`; the derived `resetText` field (an ISO rendering of
`resetAt`, read by nothing embedded here) is not modelled. -/
structure UsageWindow where
  key : UsageWindowKey
  label : String
  percentLeft : ℚ
  resetAt : ℤ
deriving DecidableEq, Repr

/-- `CodexStatus` of the codex module.  `credits` keeps whatever number the
snapshot carried (`typeof snapshot.credits === "number"`), finite or not. -/
structure CodexStatus where
  windows : List UsageWindow
  credits : Option JsNum
  raw : String
deriving DecidableEq, Repr

/-- `clampPercent` of the codex module (`src/gemini.ts` lines 1096-1099):
clamp to `[0, 100]`.  The source first maps non-finite inputs to 0; every
value reaching it in the embedded code is finite, so that guard is not
modelled. -/
def clampPercent (value : ℚ) : ℚ := min (max value 0) 100

/-- `resolveWindowMinutes` (`src/gemini.ts` lines 1055-1061): the first of
`windowDurationMins`, `windowMinutes`, `window_minutes` that is a finite
number. -/
def resolveWindowMinutes (w : RateLimitWindow) : Option ℚ :=
  match w.windowDurationMins with
  | some (JsNum.fin x) => some x
  | _ =>
    match w.windowMinutes with
    | some (JsNum.fin x) => some x
    | _ =>
      match w.window_minutes with
      | some (JsNum.fin x) => some x
      | _ => none

/-- `resolveResetsAt` (`src/gemini.ts` lines 1063-1069): the first of
`resetsAt`, `resets_at` that is a finite number (epoch seconds). -/
def resolveResetsAt (w : RateLimitWindow) : Option ℚ :=
  match w.resetsAt with
  | some (JsNum.fin x) => some x
  | _ =>
    match w.resets_at with
    | some (JsNum.fin x) => some x
    | _ => none

/-- The normalized shape `{ usedPercent, windowMinutes, resetAt }` produced by
`normalizeRateLimitWindow`.  `resetAt` is epoch milliseconds. -/
structure NormalizedRateLimitWindow where
  usedPercent : ℚ
  windowMinutes : Option ℚ
  resetAt : Option ℤ
deriving DecidableEq, Repr

/-- `normalizeRateLimitWindow` (`src/gemini.ts` lines 1071-1094).  The used
percentage is taken from `usedPercent` when that field is a number (even a
non-finite one), else from `used_percent`; a non-finite selection fails the
`Number.isFinite` guard and yields `none`.  The reset time comes from the
resolved epoch-second field (times 1000, truncated to a `Date` time value) or,
failing that, is derived as `now + windowMinutes` when the duration is
known. -/
def normalizeRateLimitWindow (w : RateLimitWindow) (now : ℤ) :
    Option NormalizedRateLimitWindow :=
  let selected : Option JsNum :=
    match w.usedPercent with
    | some v => some v
    | none => w.used_percent
  match selected with
  | some (JsNum.fin usedPercent) =>
    let windowMinutes := resolveWindowMinutes w
    let resetAt : Option ℤ :=
      match resolveResetsAt w with
      | some r => some (jsTrunc (r * 1000))
      | none =>
        match windowMinutes with
        | some m => some (jsTrunc ((now : ℚ) + m * 60000))
        | none => none
    some ⟨usedPercent, windowMinutes, resetAt⟩
  | _ => none

/-- The `source` tag of a normalized candidate (`"primary" | "secondary"`). -/
inductive CandidateSource where
  | primary
  | secondary
deriving DecidableEq, Repr

/-- `NormalizedCandidate` of `rateLimitSnapshotToStatus`. -/
structure NormalizedCandidate where
  source : CandidateSource
  data : NormalizedRateLimitWindow
deriving DecidableEq, Repr

/-- The candidate list of `rateLimitSnapshotToStatus` (`src/gemini.ts` lines
1113-1120): primary then secondary, keeping only windows that normalize. -/
def snapshotCandidates (s : RateLimitSnapshot) (now : ℤ) : List NormalizedCandidate :=
  let fromSlot (src : CandidateSource) (w : Option RateLimitWindow) :
      Option NormalizedCandidate :=
    match w with
    | none => none
    | some window =>
      match normalizeRateLimitWindow window now with
      | none => none
      | some d => some ⟨src, d⟩
  (List.filterMap id
    [fromSlot CandidateSource.primary s.primary,
     fromSlot CandidateSource.secondary s.secondary])

/-- The slot-assignment step of `rateLimitSnapshotToStatus` (`src/gemini.ts`
lines 1124-1148), returning the `(fiveHourCandidate, weeklyCandidate)` pair.
With exactly two candidates it compares durations when both are known (ties
and the smaller duration go to the five-hour slot) and otherwise falls back
to source position; with a lone candidate (the `else` branch, reached for any
length other than two; the empty list is already returned-from earlier) the
window goes to the weekly slot exactly when its duration is known and at
least `24 * 60` minutes. -/
def assignSlots (candidates : List NormalizedCandidate) :
    Option NormalizedCandidate × Option NormalizedCandidate :=
  match candidates with
  | [first, second] =>
    match first.data.windowMinutes, second.data.windowMinutes with
    | some d1, some d2 =>
      if d1 ≤ d2 then (some first, some second) else (some second, some first)
    | _, _ =>
      if first.source = CandidateSource.primary then (some first, some second)
      else (some second, some first)
  | lone :: _ =>
    match lone.data.windowMinutes with
    | some m => if 24 * 60 ≤ m then (none, some lone) else (some lone, none)
    | none => (some lone, none)
  | [] => (none, none)

/-- `rateLimitSnapshotToStatus` (`src/gemini.ts` lines 1104-1173): normalize
the primary/secondary windows, assign slots, and emit labelled usage windows
for every slot whose reset time resolved. -/
def rateLimitSnapshotToStatus (s : RateLimitSnapshot) (now : ℤ) : Option CodexStatus :=
  let candidates := snapshotCandidates s now
  if candidates.isEmpty then none
  else
    let slots := assignSlots candidates
    let fiveHourWindow : List UsageWindow :=
      match slots.1 with
      | some c =>
        match c.data.resetAt with
        | some t =>
          [⟨UsageWindowKey.fiveHour, "5h", clampPercent (100 - c.data.usedPercent), t⟩]
        | none => []
      | none => []
    let weeklyWindow : List UsageWindow :=
      match slots.2 with
      | some c =>
        match c.data.resetAt with
        | some t =>
          [⟨UsageWindowKey.weekly, "7d", clampPercent (100 - c.data.usedPercent), t⟩]
        | none => []
      | none => []
    some ⟨fiveHourWindow ++ weeklyWindow,
          (match s.credits with
           | some v => some v
           | none => none),
          ""⟩

-- ---------------------------------------------------------------------------
-- Fetch-result classification (`src/index.ts`)
-- ---------------------------------------------------------------------------

/-- A thrown error as seen by the `catch` blocks of `fetchAllRateLimits`:
either a structured `QuotaFetchError` carrying a reason code (recognized by
`isQuotaFetchError`, `src/errors.ts`), or an arbitrary error whose message
string is all that matters to `classifyError`. -/
inductive ThrownError where
  | structured (reason : ErrorReason) (message : String)
  | plain (message : String)
deriving DecidableEq, Repr

/-- The outcome of one provider fetch: the promise resolved (possibly with an
explicitly-empty `null` value, modelled as `none`) or rejected with a thrown
error. -/
inductive FetchOutcome (α : Type) where
  | success (value : Option α)
  | thrown (e : ThrownError)
deriving DecidableEq, Repr

/-- `classifyError` (`src/index.ts` lines 95-117): keep the reason of a
structured error; otherwise pattern-match the message against known
substrings. -/
def classifyError (e : ThrownError) : ErrorReason × String :=
  match e with
  | ThrownError.structured reason message => (reason, message)
  | ThrownError.plain msg =>
    let reason : ErrorReason :=
      if jsIncludes msg "credentials not found" || jsIncludes msg "no credentials" then
        ErrorReason.no_credentials
      else if jsIncludes msg "expired" then ErrorReason.token_expired
      else if jsIncludes msg "401" || jsIncludes msg "403" || jsIncludes msg "Forbidden" then
        ErrorReason.auth_failed
      else if jsIncludes msg "timeout" || jsIncludes msg "AbortError" then
        ErrorReason.timeout
      else if jsIncludes msg "fetch failed" || jsIncludes msg "Network" then
        ErrorReason.network_error
      else if jsIncludes msg "failed:" || jsIncludes msg "API Error" then
        ErrorReason.api_error
      else ErrorReason.unknown
    (reason, msg)

/-- `statusForReason` (`src/index.ts` lines 119-122). -/
def statusForReason (reason : ErrorReason) : AgentStatus :=
  if reason = ErrorReason.no_credentials ∨ reason = ErrorReason.token_expired then
    AgentStatus.noData
  else AgentStatus.error

/-- `displayForFailure` (`src/index.ts` lines 124-127). -/
def displayForFailure (status : AgentStatus) (reason : ErrorReason)
    (message : Option String) : String :=
  if status = AgentStatus.noData then "no data (" ++ reason.toDisplayString ++ ")"
  else
    match message with
    | some m => "error (" ++ reason.toDisplayString ++ "): " ++ m
    | none => "error (" ++ reason.toDisplayString ++ ")"

/-- The `catch` block shared verbatim by all four fetchers of
`fetchAllRateLimits` (`src/index.ts` lines 162-172, 190-200, 211-221,
234-244). -/
def catchClassify (α : Type) (e : ThrownError) : QuotaResult α :=
  let classified := classifyError e
  let reason := classified.1
  let message := classified.2
  let status := statusForReason reason
  { status := status
    data := none
    reason := some reason
    error := if status = AgentStatus.error then some message else none
    display :=
      displayForFailure status reason
        (if status = AgentStatus.error then some message else none) }

/-- The `no-data` result shared by the claude, gemini and codex fetchers for
an explicitly-empty (`null`) fetch value (`src/index.ts` lines 151, 178,
227). -/
def noDataUnknownResult (α : Type) : QuotaResult α :=
  { status := AgentStatus.noData
    data := none
    reason := some ErrorReason.unknown
    error := none
    display := "no data (unknown)" }

/-- The claude fetcher of `fetchAllRateLimits` (`src/index.ts` lines
148-173), given the outcome of `fetchClaudeRateLimits` and the current time
in epoch milliseconds. -/
def claudeFetcherResult (outcome : FetchOutcome ClaudeUsageData) (now : ℤ) :
    QuotaResult ClaudeUsageData :=
  match outcome with
  | FetchOutcome.thrown e => catchClassify _ e
  | FetchOutcome.success none => noDataUnknownResult _
  | FetchOutcome.success (some data) =>
    let fiveHourBuckets : List String :=
      match data.five_hour with
      | some b =>
        ["5h: " ++ toString (jsRound b.utilization) ++ "% used (resets in " ++
          formatResetIn b.resets_at now ++ ")"]
      | none => []
    let sevenDayBuckets : List String :=
      match data.seven_day with
      | some b =>
        ["7d: " ++ toString (jsRound b.utilization) ++ "% used (resets in " ++
          formatResetIn b.resets_at now ++ ")"]
      | none => []
    let joined := joinComma (fiveHourBuckets ++ sevenDayBuckets)
    { status := AgentStatus.ok
      data := some data
      reason := none
      error := none
      display := if joined = "" then "no data" else joined }

/-- The model-line accumulation loop of the gemini fetcher (`src/index.ts`
lines 179-188): simplify the model id to `pro`/`flash` by substring, skip
entries whose simplified name was already seen, and format a line per kept
entry. -/
def geminiModelLines (now : ℤ) :
    List (String × Option GeminiModelUsage) → List String → List String
  | [], _ => []
  | (_, none) :: rest, seen => geminiModelLines now rest seen
  | (modelId, some usage) :: rest, seen =>
    let name :=
      if jsIncludes modelId "pro" then "pro"
      else if jsIncludes modelId "flash" then "flash"
      else modelId
    if name ∈ seen then geminiModelLines now rest seen
    else
      (name ++ ": " ++ toString (jsRound usage.usage) ++ "% used (resets in " ++
        formatResetIn usage.resetAt now ++ ")") ::
        geminiModelLines now rest (name :: seen)

/-- The gemini fetcher of `fetchAllRateLimits` (`src/index.ts` lines
175-201). -/
def geminiFetcherResult (outcome : FetchOutcome GeminiUsage) (now : ℤ) :
    QuotaResult GeminiUsage :=
  match outcome with
  | FetchOutcome.thrown e => catchClassify _ e
  | FetchOutcome.success none => noDataUnknownResult _
  | FetchOutcome.success (some data) =>
    let joined := joinComma (geminiModelLines now data [])
    { status := AgentStatus.ok
      data := some data
      reason := none
      error := none
      display := if joined = "" then "no data" else joined }

/-- JavaScript falsiness of `getCopilotToken`'s result: `null` or the empty
string. -/
def tokenIsFalsy : Option String → Bool
  | none => true
  | some t => t = ""

/-- The copilot fetcher of `fetchAllRateLimits` (`src/index.ts` lines
203-222), given the token found by `getCopilotToken` and the outcome of
`fetchCopilotRateLimits`. -/
def copilotFetcherResult (token : Option String)
    (outcome : FetchOutcome CopilotUsage) (now : ℤ) : QuotaResult CopilotUsage :=
  if tokenIsFalsy token then
    { status := AgentStatus.noData
      data := none
      reason := some ErrorReason.no_credentials
      error := none
      display := "no data (no_credentials)" }
  else
    match outcome with
    | FetchOutcome.thrown e => catchClassify _ e
    | FetchOutcome.success none =>
      { status := AgentStatus.error
        data := none
        reason := some ErrorReason.parse_error
        error := some "Copilot API response missing quota fields."
        display := "error (parse_error)" }
    | FetchOutcome.success (some data) =>
      let usedPercent := jsRound (100 - data.percentRemaining)
      { status := AgentStatus.ok
        data := some data
        reason := none
        error := none
        display := toString usedPercent ++ "% used (resets in " ++
          formatResetIn data.resetAt now ++ ")" }

/-- The codex fetcher of `fetchAllRateLimits` (`src/index.ts` lines 224-246).
Note that the parse-error branch (`status.windows` missing or empty) returns
the raw snapshot as `data`, not `null`. -/
def codexFetcherResult (outcome : FetchOutcome RateLimitSnapshot) (now : ℤ) :
    QuotaResult RateLimitSnapshot :=
  match outcome with
  | FetchOutcome.thrown e => catchClassify _ e
  | FetchOutcome.success none => noDataUnknownResult _
  | FetchOutcome.success (some data) =>
    let parseErrorResult : QuotaResult RateLimitSnapshot :=
      { status := AgentStatus.error
        data := some data
        reason := some ErrorReason.parse_error
        error := some "Codex usage windows missing."
        display := "error (parse_error)" }
    match rateLimitSnapshotToStatus data now with
    | none => parseErrorResult
    | some st =>
      if st.windows.isEmpty then parseErrorResult
      else
        { status := AgentStatus.ok
          data := some data
          reason := none
          error := none
          display :=
            joinComma (st.windows.map fun w =>
              w.label ++ ": " ++ toString (jsRound (100 - w.percentLeft)) ++
                "% used (resets in " ++ formatResetIn w.resetAt now ++ ")") }

-- ---------------------------------------------------------------------------
-- Orchestration (`src/index.ts`, `fetchAllRateLimits`)
-- ---------------------------------------------------------------------------

/-- `SUPPORTED_AGENTS` (`src/index.ts` line 32). -/
inductive Agent where
  | claude
  | gemini
  | copilot
  | codex
deriving DecidableEq, Repr

/-- The list `["claude", "gemini", "copilot", "codex"]`. -/
def supportedAgents : List Agent :=
  [Agent.claude, Agent.gemini, Agent.copilot, Agent.codex]

/-- `DEFAULT_SKIPPED_RESULT` (`src/index.ts` lines 87-93). -/
def DEFAULT_SKIPPED_RESULT (α : Type) : QuotaResult α :=
  { status := AgentStatus.noData
    data := none
    reason := none
    error := none
    display := "skipped" }

/-- `AllRateLimits` as built by `fetchAllRateLimits` (`src/index.ts` lines
249-255): a summary plus one result per supported agent.  (The `amazonQ`
field declared in `src/types.ts` is never set by this orchestrator and is not
modelled.) -/
@[ext]
structure AllRateLimits where
  summary : GlobalSummary
  claude : QuotaResult ClaudeUsageData
  gemini : QuotaResult GeminiUsage
  copilot : QuotaResult CopilotUsage
  codex : QuotaResult RateLimitSnapshot

/-- The immutable inputs a run of `fetchAllRateLimits` draws on: the outcome
each provider fetcher would produce if invoked, the copilot token discovery
result, and the current time. -/
structure FetchEnv where
  claudeOutcome : FetchOutcome ClaudeUsageData
  geminiOutcome : FetchOutcome GeminiUsage
  copilotToken : Option String
  copilotOutcome : FetchOutcome CopilotUsage
  codexOutcome : FetchOutcome RateLimitSnapshot
  now : ℤ

/-- The result the claude fetcher produces under environment `env`. -/
def claudeResult (env : FetchEnv) : QuotaResult ClaudeUsageData :=
  claudeFetcherResult env.claudeOutcome env.now

/-- The result the gemini fetcher produces under environment `env`. -/
def geminiResult (env : FetchEnv) : QuotaResult GeminiUsage :=
  geminiFetcherResult env.geminiOutcome env.now

/-- The result the copilot fetcher produces under environment `env`. -/
def copilotResult (env : FetchEnv) : QuotaResult CopilotUsage :=
  copilotFetcherResult env.copilotToken env.copilotOutcome env.now

/-- The result the codex fetcher produces under environment `env`. -/
def codexResult (env : FetchEnv) : QuotaResult RateLimitSnapshot :=
  codexFetcherResult env.codexOutcome env.now

/-- The `status` of the result agent `a`'s fetcher produces under `env`. -/
def statusOf (env : FetchEnv) : Agent → AgentStatus
  | Agent.claude => (claudeResult env).status
  | Agent.gemini => (geminiResult env).status
  | Agent.copilot => (copilotResult env).status
  | Agent.codex => (codexResult env).status

/-- The `display` of the result agent `a`'s fetcher produces under `env`. -/
def displayOf (env : FetchEnv) : Agent → String
  | Agent.claude => (claudeResult env).display
  | Agent.gemini => (geminiResult env).display
  | Agent.copilot => (copilotResult env).display
  | Agent.codex => (codexResult env).display

/-- One iteration of the result-assignment loop (`src/index.ts` lines
265-268): store agent `a`'s result under its key. -/
def setAgentResult (env : FetchEnv) (acc : AllRateLimits) : Agent → AllRateLimits
  | Agent.claude => { acc with claude := claudeResult env }
  | Agent.gemini => { acc with gemini := geminiResult env }
  | Agent.copilot => { acc with copilot := copilotResult env }
  | Agent.codex => { acc with codex := codexResult env }

/-- The initial `finalResult` of `fetchAllRateLimits` (`src/index.ts` lines
249-255): a healthy summary and the skipped placeholder everywhere. -/
def initialAllRateLimits : AllRateLimits :=
  { summary := ⟨SummaryStatus.healthy, "All agents are within limits."⟩
    claude := DEFAULT_SKIPPED_RESULT _
    gemini := DEFAULT_SKIPPED_RESULT _
    copilot := DEFAULT_SKIPPED_RESULT _
    codex := DEFAULT_SKIPPED_RESULT _ }

/-- The `%`-token scan of the summary loop (`src/index.ts` line 271,
`display.matchAll(/(\d+)%/g)`): every maximal digit run immediately followed
by `%`, as its numeric value.  The accumulator holds the value of the digit
run ending just before the current position, if any. -/
def percentTokensGo : List Char → Option ℕ → List ℕ
  | [], _ => []
  | c :: rest, run =>
    if c = '%' then
      match run with
      | some v => v :: percentTokensGo rest none
      | none => percentTokensGo rest none
    else if c.isDigit then
      percentTokensGo rest (some ((run.getD 0) * 10 + (c.toNat - 48)))
    else percentTokensGo rest none

/-- All `(\d+)%` token values of a display string, in order. -/
def percentTokens (s : String) : List ℕ := percentTokensGo s.toList none

/-- `criticalCount` of the summary loop (`src/index.ts` lines 263, 270):
the number of fetched results with status `"error"`. -/
def criticalCount (env : FetchEnv) (agents : List Agent) : ℕ :=
  agents.countP fun a => statusOf env a = AgentStatus.error

/-- `maxStress` of the summary loop (`src/index.ts` lines 262, 271-276):
the running maximum, starting at 0, over every percent token of every
fetched result's display. -/
def maxStress (env : FetchEnv) (agents : List Agent) : ℕ :=
  agents.foldl (fun acc a => (percentTokens (displayOf env a)).foldl max acc) 0

/-- `fetchAllRateLimits` (`src/index.ts` lines 138-286), over an explicit
fetch environment.  `agentsOpt = none` models an omitted `agents` option
(fetch all supported agents). -/
def fetchAllRateLimits (agentsOpt : Option (List Agent)) (env : FetchEnv) :
    AllRateLimits :=
  let agentsToFetch := agentsOpt.getD supportedAgents
  let base := agentsToFetch.foldl (setAgentResult env) initialAllRateLimits
  let crit := criticalCount env agentsToFetch
  let ms := maxStress env agentsToFetch
  if 0 < crit then
    { base with
        summary :=
          ⟨SummaryStatus.critical,
           toString crit ++ " agent(s) failed or are at 100% capacity."⟩ }
  else if 80 ≤ ms then
    { base with
        summary :=
          ⟨SummaryStatus.warning, "Usage is high (up to " ++ toString ms ++ "%)."⟩ }
  else base

-- ---------------------------------------------------------------------------
-- Human row building (`src/gemini.ts` lines 691-831)
-- ---------------------------------------------------------------------------

/-- `HumanStatus` (`src/gemini.ts` lines 691-696). -/
inductive HumanStatus where
  | CAN_USE
  | LOW_QUOTA
  | WAIT_RESET
  | LOGIN_REQUIRED
  | FETCH_FAILED
deriving DecidableEq, Repr

/-- A display row as the per-provider builders return it: status, limit label
and details text (`src/gemini.ts` lines 751-754; the `agent` column is added
by the caller).  `limit` is one of the `HumanLimit` strings. -/
structure HumanRowCore where
  status : HumanStatus
  limit : String
  details : String
deriving DecidableEq, Repr

/-- `UsageWindow` of the row-building module (`src/gemini.ts` lines 707-711).
`usedPercent` is an integer there: every producer rounds before storing. -/
structure RowUsageWindow where
  label : String
  usedPercent : ℤ
  resetAt : ℤ
deriving DecidableEq, Repr

/-- `clampPercent` of the row-building module (`src/gemini.ts` lines
713-716), on the integers its call sites produce. -/
def clampPercentRow (value : ℤ) : ℤ := min 100 (max 0 value)

/-- `compareMostConstraining` (`src/gemini.ts` lines 718-721): higher
`usedPercent` first, ties broken by sooner `resetAt`. -/
def compareMostConstraining (a b : RowUsageWindow) : ℤ :=
  if a.usedPercent ≠ b.usedPercent then b.usedPercent - a.usedPercent
  else a.resetAt - b.resetAt

/-- Insert `x` into a sorted list, after every element `y` with
`after x y = true`.  With `after x y` read as "the comparator puts `x`
strictly after `y`", folding this over a list is the stable sort
`Array.prototype.sort` performs. -/
def insertByAfter (after : RowUsageWindow → RowUsageWindow → Bool)
    (x : RowUsageWindow) : List RowUsageWindow → List RowUsageWindow
  | [] => [x]
  | y :: ys => if after x y then y :: insertByAfter after x ys else x :: y :: ys

/-- Stable sort by a JavaScript comparator (`windows.sort(cmp)`), with
`after x y` meaning `cmp(x, y) > 0`. -/
def jsSortByAfter (after : RowUsageWindow → RowUsageWindow → Bool) :
    List RowUsageWindow → List RowUsageWindow
  | [] => []
  | x :: xs => insertByAfter after x (jsSortByAfter after xs)

/-- The sort `windows.sort(compareMostConstraining)` (`src/gemini.ts` lines
780, 814). -/
def sortMostConstraining (windows : List RowUsageWindow) : List RowUsageWindow :=
  jsSortByAfter (fun a b => 0 < compareMostConstraining a b) windows

/-- `deriveStatusFromUsedPercent` (`src/gemini.ts` lines 723-728). -/
def deriveStatusFromUsedPercent (usedPercent : ℤ) : HumanStatus :=
  let clamped := clampPercentRow usedPercent
  if 100 ≤ clamped then HumanStatus.WAIT_RESET
  else if 80 ≤ clamped then HumanStatus.LOW_QUOTA
  else HumanStatus.CAN_USE

/-- `deriveStatusFromResult` (`src/gemini.ts` lines 730-743). -/
def deriveStatusFromResult {α : Type} (result : QuotaResult α)
    (usedPercent : Option ℤ) : HumanStatus :=
  if result.status = AgentStatus.error then
    if result.reason = some ErrorReason.auth_failed ∨
        result.reason = some ErrorReason.no_credentials then
      HumanStatus.LOGIN_REQUIRED
    else HumanStatus.FETCH_FAILED
  else if result.status = AgentStatus.noData then
    if result.reason = some ErrorReason.no_credentials ∨
        result.reason = some ErrorReason.auth_failed then
      HumanStatus.LOGIN_REQUIRED
    else HumanStatus.FETCH_FAILED
  else
    match usedPercent with
    | none => HumanStatus.FETCH_FAILED
    | some u => deriveStatusFromUsedPercent u

/-- `formatWindowDetails` (`src/gemini.ts` lines 745-749). -/
def formatWindowDetails (windows : List RowUsageWindow) (now : ℤ) : String :=
  joinComma (windows.map fun w =>
    w.label ++ ": " ++ toString w.usedPercent ++ "% used (reset in " ++
      formatResetIn w.resetAt now ++ ")")

/-- `buildCodexRow` (`src/gemini.ts` lines 799-831). -/
def buildCodexRow (result : QuotaResult RateLimitSnapshot) (now : ℤ) :
    HumanRowCore :=
  let statusObj : Option CodexStatus :=
    match result.data with
    | some d => rateLimitSnapshotToStatus d now
    | none => none
  let windows : List RowUsageWindow :=
    ((statusObj.map CodexStatus.windows).getD []).filterMap fun w =>
      let usedPercent := clampPercentRow (jsRound (100 - w.percentLeft))
      if w.label = "5h" ∨ w.label = "7d" then
        some ⟨w.label, usedPercent, w.resetAt⟩
      else none
  let sorted := sortMostConstraining windows
  let limitingUsed : Option ℤ := (sorted.head?).map RowUsageWindow.usedPercent
  let status := deriveStatusFromResult result limitingUsed
  if status = HumanStatus.LOGIN_REQUIRED then
    ⟨status, "-", "login required"⟩
  else if status = HumanStatus.FETCH_FAILED then
    ⟨status, "-",
      match result.reason with
      | some r => "fetch failed (" ++ r.toDisplayString ++ ")"
      | none => "fetch failed"⟩
  else
    ⟨status,
      ((sorted.head?).map RowUsageWindow.label).getD "-",
      if sorted.isEmpty then "no data" else formatWindowDetails sorted now⟩

/-- Does some entry of a returned `AllRateLimits` map have status
`"error"`? -/
def anyErrorEntry (R : AllRateLimits) : Prop :=
  R.claude.status = AgentStatus.error ∨ R.gemini.status = AgentStatus.error ∨
  R.copilot.status = AgentStatus.error ∨ R.codex.status = AgentStatus.error

/-- The largest `%`-token value appearing in the display strings of a
returned `AllRateLimits` map (0 when there is none). -/
def maxDisplayPercent (R : AllRateLimits) : ℕ :=
  (percentTokens R.claude.display ++ percentTokens R.gemini.display ++
   percentTokens R.copilot.display ++ percentTokens R.codex.display).foldl max 0

/-- Agent `a`'s entry of the returned map is exactly the skipped
placeholder. -/
def entryIsSkipped (R : AllRateLimits) : Agent → Prop
  | Agent.claude => R.claude = DEFAULT_SKIPPED_RESULT _
  | Agent.gemini => R.gemini = DEFAULT_SKIPPED_RESULT _
  | Agent.copilot => R.copilot = DEFAULT_SKIPPED_RESULT _
  | Agent.codex => R.codex = DEFAULT_SKIPPED_RESULT _

/-- Two fetch environments agree on the clock and on every input consumed by
the fetchers of the requested agents.  Inputs of agents outside the list are
unconstrained: a run that never invokes those fetchers cannot observe
them. -/
def envAgreesOn (agents : List Agent) (env env' : FetchEnv) : Prop :=
  env.now = env'.now ∧
  (Agent.claude ∈ agents → env.claudeOutcome = env'.claudeOutcome) ∧
  (Agent.gemini ∈ agents → env.geminiOutcome = env'.geminiOutcome) ∧
  (Agent.copilot ∈ agents →
    env.copilotToken = env'.copilotToken ∧ env.copilotOutcome = env'.copilotOutcome) ∧
  (Agent.codex ∈ agents → env.codexOutcome = env'.codexOutcome)

/-- The invariant C1 claims of every classified provider result. -/
def ResultInvariant {α : Type} (res : QuotaResult α) : Prop :=
  (res.status = AgentStatus.ok → res.data ≠ none ∧ res.reason = none) ∧
  (res.status ≠ AgentStatus.ok → res.data = none) ∧
  res.display ≠ ""

-- ---------------------------------------------------------------------------
-- Helper lemmas
-- ---------------------------------------------------------------------------

/-- The character data of an appended string. -/
theorem string_data_append (a b : String) : (a ++ b).data = a.data ++ b.data := by
  rw [String.congr_append]

/-- A string is empty exactly when its character data is. -/
theorem string_eq_empty_iff (s : String) : s = "" ↔ s.data = [] := by
  constructor
  · intro h; rw [h]
  · intro h
    cases s with
    | mk d => exact congrArg String.mk h

/-- A string append is nonempty as soon as either part is. -/
theorem stringAppend_ne_empty (a b : String) (h : a.data ≠ [] ∨ b.data ≠ []) :
    a ++ b ≠ "" := by
  intro hc
  have hd : a.data ++ b.data = [] := by
    rw [← string_data_append]
    exact (string_eq_empty_iff _).mp hc
  rcases List.append_eq_nil.mp hd with ⟨ha, hb⟩
  cases h with
  | inl h => exact h ha
  | inr h => exact h hb

/-- `joinComma` of a list of nonempty strings is nonempty unless the list
itself is empty. -/
theorem joinComma_ne_empty (x : String) (l : List String) (h : x.data ≠ []) :
    joinComma (x :: l) ≠ "" := by
  cases l with
  | nil => simpa [joinComma, string_eq_empty_iff] using h
  | cons y rest =>
    show x ++ ", " ++ joinComma (y :: rest) ≠ ""
    exact stringAppend_ne_empty _ _
      (Or.inl (by rw [string_data_append]; simp [h]))

/-- `displayForFailure` never produces the empty string. -/
theorem displayForFailure_ne_empty (st : AgentStatus) (r : ErrorReason)
    (m : Option String) : displayForFailure st r m ≠ "" := by
  unfold displayForFailure
  split
  · exact stringAppend_ne_empty _ _ (Or.inr (by decide))
  · cases m with
    | some msg =>
      apply stringAppend_ne_empty
      left
      rw [string_data_append]
      exact fun hc => absurd (List.append_eq_nil.mp hc).2 (by decide)
    | none => exact stringAppend_ne_empty _ _ (Or.inr (by decide))

/-- `catchClassify` never reports success. -/
theorem catchClassify_status_ne_ok (α : Type) (e : ThrownError) :
    (catchClassify α e).status ≠ AgentStatus.ok := by
  show statusForReason (classifyError e).1 ≠ AgentStatus.ok
  unfold statusForReason
  split <;> simp

/-- `catchClassify` clears the data field. -/
theorem catchClassify_data_eq_none (α : Type) (e : ThrownError) :
    (catchClassify α e).data = none := rfl

/-- `catchClassify` always produces a nonempty display. -/
theorem catchClassify_display_ne_empty (α : Type) (e : ThrownError) :
    (catchClassify α e).display ≠ "" :=
  displayForFailure_ne_empty _ _ _

/-- `catchClassify` satisfies the provider-result invariant. -/
theorem catchClassify_invariant (α : Type) (e : ThrownError) :
    ResultInvariant (catchClassify α e) :=
  ⟨fun h => absurd h (catchClassify_status_ne_ok α e),
   fun _ => catchClassify_data_eq_none α e,
   catchClassify_display_ne_empty α e⟩

/-- Reduction of the copilot fetcher when the token is falsy. -/
theorem copilotFetcherResult_of_falsy (tok : Option String)
    (o : FetchOutcome CopilotUsage) (now : ℤ) (h : tokenIsFalsy tok = true) :
    copilotFetcherResult tok o now =
      { status := AgentStatus.noData
        data := none
        reason := some ErrorReason.no_credentials
        error := none
        display := "no data (no_credentials)" } := by
  simp [copilotFetcherResult, h]

/-- Reduction of the copilot fetcher on a thrown error. -/
theorem copilotFetcherResult_of_thrown (tok : Option String) (e : ThrownError)
    (now : ℤ) (h : tokenIsFalsy tok = false) :
    copilotFetcherResult tok (FetchOutcome.thrown e) now =
      catchClassify CopilotUsage e := by
  simp [copilotFetcherResult, h]

/-- Reduction of the copilot fetcher on a `null` fetch value. -/
theorem copilotFetcherResult_of_success_none (tok : Option String) (now : ℤ)
    (h : tokenIsFalsy tok = false) :
    copilotFetcherResult tok (FetchOutcome.success none) now =
      { status := AgentStatus.error
        data := none
        reason := some ErrorReason.parse_error
        error := some "Copilot API response missing quota fields."
        display := "error (parse_error)" } := by
  simp [copilotFetcherResult, h]

/-- Reduction of the copilot fetcher on a successful fetch. -/
theorem copilotFetcherResult_of_success_some (tok : Option String)
    (data : CopilotUsage) (now : ℤ) (h : tokenIsFalsy tok = false) :
    copilotFetcherResult tok (FetchOutcome.success (some data)) now =
      { status := AgentStatus.ok
        data := some data
        reason := none
        error := none
        display := toString (jsRound (100 - data.percentRemaining)) ++
          "% used (resets in " ++ formatResetIn data.resetAt now ++ ")" } := by
  simp [copilotFetcherResult, h]

/-- Reduction of the codex fetcher when the snapshot yields no status. -/
theorem codexFetcherResult_of_status_none (data : RateLimitSnapshot) (now : ℤ)
    (hst : rateLimitSnapshotToStatus data now = none) :
    codexFetcherResult (FetchOutcome.success (some data)) now =
      { status := AgentStatus.error
        data := some data
        reason := some ErrorReason.parse_error
        error := some "Codex usage windows missing."
        display := "error (parse_error)" } := by
  simp [codexFetcherResult, hst]

/-- Reduction of the codex fetcher when the status has no windows. -/
theorem codexFetcherResult_of_windows_empty (data : RateLimitSnapshot)
    (st : CodexStatus) (now : ℤ) (hst : rateLimitSnapshotToStatus data now = some st)
    (hw : st.windows.isEmpty = true) :
    codexFetcherResult (FetchOutcome.success (some data)) now =
      { status := AgentStatus.error
        data := some data
        reason := some ErrorReason.parse_error
        error := some "Codex usage windows missing."
        display := "error (parse_error)" } := by
  simp [codexFetcherResult, hst, hw]

/-- Reduction of the codex fetcher when the status has windows. -/
theorem codexFetcherResult_of_windows (data : RateLimitSnapshot)
    (st : CodexStatus) (now : ℤ) (hst : rateLimitSnapshotToStatus data now = some st)
    (hw : st.windows.isEmpty = false) :
    codexFetcherResult (FetchOutcome.success (some data)) now =
      { status := AgentStatus.ok
        data := some data
        reason := none
        error := none
        display :=
          joinComma (st.windows.map fun w =>
            w.label ++ ": " ++ toString (jsRound (100 - w.percentLeft)) ++
              "% used (resets in " ++ formatResetIn w.resetAt now ++ ")") } := by
  simp [codexFetcherResult, hst, hw]

-- ---------------------------------------------------------------------------
-- C9
-- ---------------------------------------------------------------------------

/-- C9: the duration formatter has no day unit.  At `now + 24h` it produces
`"24h"`, at `now + 25h` it produces `"25h"`, and at `now + 140h39m` it
produces `"140h 39m"`, diverging from the reference outputs `"1d"`,
`"1d 1h"`, `"5d 20h 39m"` claimed by the spec (and expected by the
repository's own tests in `tests/cli.test.ts`); the sub-day reference
outputs do hold. -/
theorem formatResetIn_has_no_day_unit :
    formatResetIn 86400000 0 = "24h" ∧
    formatResetIn 90000000 0 = "25h" ∧
    formatResetIn 506340000 0 = "140h 39m" ∧
    formatResetIn 0 0 = "already reset" ∧
    formatResetIn (-60000) 0 = "already reset" ∧
    formatResetIn 300000 0 = "5m" ∧
    formatResetIn 8100000 0 = "2h 15m" := by
  refine ⟨?_, ?_, ?_, ?_, ?_, ?_, ?_⟩ <;> decide

-- ---------------------------------------------------------------------------
-- C7
-- ---------------------------------------------------------------------------

/-- C7: when neither `usedPercent` nor `used_percent` is a finite number, the
window normalizer returns `none` (and, being a total Lean function, cannot
throw), whatever the other fields hold. -/
theorem normalizeRateLimitWindow_none_without_percent (w : RateLimitWindow)
    (now : ℤ) (h1 : isFiniteNum w.usedPercent = false)
    (h2 : isFiniteNum w.used_percent = false) :
    normalizeRateLimitWindow w now = none := by
  cases hu : w.usedPercent with
  | none =>
    cases hu' : w.used_percent with
    | none => simp [normalizeRateLimitWindow, hu, hu']
    | some v =>
      cases v with
      | fin q => rw [hu'] at h2; simp [isFiniteNum] at h2
      | nonfin => simp [normalizeRateLimitWindow, hu, hu']
  | some v =>
    cases v with
    | fin q => rw [hu] at h1; simp [isFiniteNum] at h1
    | nonfin => simp [normalizeRateLimitWindow, hu]

/-- Witness for C7: a concrete window with a non-finite `usedPercent`, no
`used_percent`, and arbitrary other fields normalizes to `none`. -/
theorem normalizeRateLimitWindow_none_without_percent_witness :
    isFiniteNum (RateLimitWindow.mk (some JsNum.nonfin) none
        (some (JsNum.fin 300)) none none (some (JsNum.fin 1000)) none).usedPercent
        = false ∧
    isFiniteNum (RateLimitWindow.mk (some JsNum.nonfin) none
        (some (JsNum.fin 300)) none none (some (JsNum.fin 1000)) none).used_percent
        = false ∧
    normalizeRateLimitWindow
      (RateLimitWindow.mk (some JsNum.nonfin) none
        (some (JsNum.fin 300)) none none (some (JsNum.fin 1000)) none) 42 = none :=
  ⟨by decide, by decide,
    normalizeRateLimitWindow_none_without_percent _ 42 (by decide) (by decide)⟩

-- ---------------------------------------------------------------------------
-- C5
-- ---------------------------------------------------------------------------

/-- C5: with two normalized windows of known distinct durations, the
smaller-duration window goes to the five-hour slot and the larger to the
weekly slot, in whichever order the two windows occupy the
primary/secondary positions. -/
theorem assignSlots_smaller_duration_is_short (w1 w2 : NormalizedRateLimitWindow)
    (d1 d2 : ℚ) (h1 : w1.windowMinutes = some d1) (h2 : w2.windowMinutes = some d2)
    (hlt : d1 < d2) :
    assignSlots [⟨CandidateSource.primary, w1⟩, ⟨CandidateSource.secondary, w2⟩] =
      (some ⟨CandidateSource.primary, w1⟩, some ⟨CandidateSource.secondary, w2⟩) ∧
    assignSlots [⟨CandidateSource.primary, w2⟩, ⟨CandidateSource.secondary, w1⟩] =
      (some ⟨CandidateSource.secondary, w1⟩, some ⟨CandidateSource.primary, w2⟩) := by
  constructor
  · simp [assignSlots, h1, h2, le_of_lt hlt]
  · simp [assignSlots, h1, h2, not_le.mpr hlt]

/-- Witness for C5: concrete windows of 300 and 10080 minutes. -/
theorem assignSlots_smaller_duration_is_short_witness :
    (NormalizedRateLimitWindow.mk 40 (some 300) (some 1000)).windowMinutes
        = some 300 ∧
    (NormalizedRateLimitWindow.mk 10 (some 10080) (some 2000)).windowMinutes
        = some 10080 ∧
    (300 : ℚ) < 10080 ∧
    assignSlots
        [⟨CandidateSource.primary, NormalizedRateLimitWindow.mk 40 (some 300) (some 1000)⟩,
         ⟨CandidateSource.secondary, NormalizedRateLimitWindow.mk 10 (some 10080) (some 2000)⟩] =
      (some ⟨CandidateSource.primary, NormalizedRateLimitWindow.mk 40 (some 300) (some 1000)⟩,
       some ⟨CandidateSource.secondary, NormalizedRateLimitWindow.mk 10 (some 10080) (some 2000)⟩) :=
  ⟨rfl, rfl, by norm_num,
    (assignSlots_smaller_duration_is_short _ _ 300 10080 rfl rfl (by norm_num)).1⟩

-- ---------------------------------------------------------------------------
-- C6
-- ---------------------------------------------------------------------------

/-- C6: a lone usable window is assigned to the weekly slot exactly when its
duration is known and at least 1440 minutes, and to the five-hour slot
otherwise (including when the duration is unknown); concretely, a lone
window of 10080 minutes yields the weekly slot and one of 300 minutes the
five-hour slot. -/
theorem assignSlots_lone_window :
    (∀ (c : NormalizedCandidate) (m : ℚ),
        c.data.windowMinutes = some m →
          (1440 ≤ m → assignSlots [c] = (none, some c)) ∧
          (m < 1440 → assignSlots [c] = (some c, none))) ∧
    (∀ c : NormalizedCandidate,
        c.data.windowMinutes = none → assignSlots [c] = (some c, none)) ∧
    (rateLimitSnapshotToStatus
        { primary := some { usedPercent := some (JsNum.fin 50),
                            windowMinutes := some (JsNum.fin 10080),
                            resetsAt := some (JsNum.fin 1000) } } 0).map
        (fun st => st.windows.map UsageWindow.key) = some [UsageWindowKey.weekly] ∧
    (rateLimitSnapshotToStatus
        { primary := some { usedPercent := some (JsNum.fin 50),
                            windowMinutes := some (JsNum.fin 300),
                            resetsAt := some (JsNum.fin 1000) } } 0).map
        (fun st => st.windows.map UsageWindow.key) = some [UsageWindowKey.fiveHour] := by
  refine ⟨?_, ?_, ?_, ?_⟩
  · intro c m hm
    constructor
    · intro h
      simp only [assignSlots, hm]
      rw [if_pos (by linarith)]
    · intro h
      simp only [assignSlots, hm]
      rw [if_neg (by linarith)]
  · intro c hm
    simp [assignSlots, hm]
  · norm_num [rateLimitSnapshotToStatus, snapshotCandidates, normalizeRateLimitWindow,
      resolveWindowMinutes, resolveResetsAt, jsTrunc, assignSlots, clampPercent,
      List.filterMap_cons, id_eq]
  · norm_num [rateLimitSnapshotToStatus, snapshotCandidates, normalizeRateLimitWindow,
      resolveWindowMinutes, resolveResetsAt, jsTrunc, assignSlots, clampPercent,
      List.filterMap_cons, id_eq]

/-- Witness for C6: the first conjunct applied to a concrete lone candidate
of 10080 minutes. -/
theorem assignSlots_lone_window_witness :
    (NormalizedCandidate.mk CandidateSource.primary
        (NormalizedRateLimitWindow.mk 50 (some 10080) (some 1000))).data.windowMinutes
      = some 10080 ∧
    (1440 : ℚ) ≤ 10080 ∧
    assignSlots
        [NormalizedCandidate.mk CandidateSource.primary
          (NormalizedRateLimitWindow.mk 50 (some 10080) (some 1000))] =
      (none,
       some (NormalizedCandidate.mk CandidateSource.primary
         (NormalizedRateLimitWindow.mk 50 (some 10080) (some 1000)))) :=
  ⟨rfl, by norm_num,
    (assignSlots_lone_window.1 _ 10080 rfl).1 (by norm_num)⟩

-- ---------------------------------------------------------------------------
-- C1
-- ---------------------------------------------------------------------------

/-- Counterexample for C1: the codex fetcher, given a successful fetch whose
snapshot has no usable window, produces a result whose status is not `"ok"`
but whose `data` is the (non-null) snapshot, refuting the invariant
`status != "ok" ⇒ data == null`. -/
theorem codexFetcherResult_parse_error_keeps_data :
    (codexFetcherResult (FetchOutcome.success (some {})) 0).status ≠ AgentStatus.ok ∧
    (codexFetcherResult (FetchOutcome.success (some {})) 0).data ≠ none := by
  constructor <;> decide

/-- C1 (amended): every classified provider result satisfies
`status == "ok" ⇒ data != null ∧ reason == null` and has a nonempty display;
`status != "ok" ⇒ data == null` holds for the claude, gemini and copilot
fetchers, and for the codex fetcher except on its parse-error branch (a
snapshot that yields no usable windows), where the result instead has
`status == "error"`, `reason == "parse_error"` and the raw snapshot as
`data`. -/
theorem fetcherResults_invariant :
    (∀ (o : FetchOutcome ClaudeUsageData) (now : ℤ),
        ResultInvariant (claudeFetcherResult o now)) ∧
    (∀ (o : FetchOutcome GeminiUsage) (now : ℤ),
        ResultInvariant (geminiFetcherResult o now)) ∧
    (∀ (tok : Option String) (o : FetchOutcome CopilotUsage) (now : ℤ),
        ResultInvariant (copilotFetcherResult tok o now)) ∧
    (∀ (o : FetchOutcome RateLimitSnapshot) (now : ℤ),
        ((codexFetcherResult o now).status = AgentStatus.ok →
          (codexFetcherResult o now).data ≠ none ∧
            (codexFetcherResult o now).reason = none) ∧
        ((codexFetcherResult o now).status ≠ AgentStatus.ok →
          (codexFetcherResult o now).data = none ∨
            ((codexFetcherResult o now).status = AgentStatus.error ∧
             (codexFetcherResult o now).reason = some ErrorReason.parse_error)) ∧
        (codexFetcherResult o now).display ≠ "") := by
  refine ⟨?_, ?_, ?_, ?_⟩
  · intro o now
    cases o with
    | thrown e => exact catchClassify_invariant _ e
    | success v =>
      cases v with
      | none =>
        refine ⟨fun h => (nomatch h), fun _ => rfl, ?_⟩
        show ("no data (unknown)" : String) ≠ ""
        decide
      | some data =>
        refine ⟨fun _ => ⟨fun hc => (nomatch hc), rfl⟩,
                fun hne => absurd rfl hne, ?_⟩
        show (if joinComma _ = "" then "no data" else joinComma _) ≠ ""
        split
        · decide
        · assumption
  · intro o now
    cases o with
    | thrown e => exact catchClassify_invariant _ e
    | success v =>
      cases v with
      | none =>
        refine ⟨fun h => (nomatch h), fun _ => rfl, ?_⟩
        show ("no data (unknown)" : String) ≠ ""
        decide
      | some data =>
        refine ⟨fun _ => ⟨fun hc => (nomatch hc), rfl⟩,
                fun hne => absurd rfl hne, ?_⟩
        show (if joinComma _ = "" then "no data" else joinComma _) ≠ ""
        split
        · decide
        · assumption
  · intro tok o now
    cases htok : tokenIsFalsy tok with
    | true =>
      unfold ResultInvariant
      rw [copilotFetcherResult_of_falsy tok o now htok]
      exact ⟨fun h => (nomatch h), fun _ => rfl, by decide⟩
    | false =>
      cases o with
      | thrown e =>
        unfold ResultInvariant
        rw [copilotFetcherResult_of_thrown tok e now htok]
        exact catchClassify_invariant _ e
      | success v =>
        cases v with
        | none =>
          unfold ResultInvariant
          rw [copilotFetcherResult_of_success_none tok now htok]
          exact ⟨fun h => (nomatch h), fun _ => rfl, by decide⟩
        | some data =>
          unfold ResultInvariant
          rw [copilotFetcherResult_of_success_some tok data now htok]
          refine ⟨fun _ => ⟨fun hc => (nomatch hc), rfl⟩,
                  fun hne => absurd rfl hne, ?_⟩
          apply stringAppend_ne_empty
          right
          decide
  · intro o now
    cases o with
    | thrown e =>
      exact ⟨(catchClassify_invariant _ e).1,
             fun _ => Or.inl (catchClassify_data_eq_none _ e),
             catchClassify_display_ne_empty _ e⟩
    | success v =>
      cases v with
      | none =>
        refine ⟨fun h => (nomatch h), fun _ => Or.inl rfl, ?_⟩
        show ("no data (unknown)" : String) ≠ ""
        decide
      | some data =>
        cases hst : rateLimitSnapshotToStatus data now with
        | none =>
          rw [codexFetcherResult_of_status_none data now hst]
          refine ⟨fun h => (nomatch h), fun _ => Or.inr ⟨rfl, rfl⟩, ?_⟩
          show ("error (parse_error)" : String) ≠ ""
          decide
        | some st =>
          cases hwin : st.windows.isEmpty with
          | true =>
            rw [codexFetcherResult_of_windows_empty data st now hst hwin]
            refine ⟨fun h => (nomatch h), fun _ => Or.inr ⟨rfl, rfl⟩, ?_⟩
            show ("error (parse_error)" : String) ≠ ""
            decide
          | false =>
            rw [codexFetcherResult_of_windows data st now hst hwin]
            refine ⟨fun _ => ⟨fun hc => (nomatch hc), rfl⟩,
                    fun hne => absurd rfl hne, ?_⟩
            cases hws : st.windows with
            | nil => rw [hws] at hwin; simp [List.isEmpty] at hwin
            | cons w rest =>
              show joinComma (List.map _ (w :: rest)) ≠ ""
              rw [List.map_cons]
              apply joinComma_ne_empty
              rw [string_data_append]
              exact fun hc => absurd (List.append_eq_nil.mp hc).2 (by decide)

/-- Witness for C1's amended invariant: the claude fetcher on an
explicitly-empty fetch has non-`ok` status, hence null data. -/
theorem fetcherResults_invariant_witness :
    (claudeFetcherResult (FetchOutcome.success none) 0).status ≠ AgentStatus.ok ∧
    (claudeFetcherResult (FetchOutcome.success none) 0).data = none :=
  ⟨by decide, (fetcherResults_invariant.1 (FetchOutcome.success none) 0).2.1 (by decide)⟩

-- ---------------------------------------------------------------------------
-- C3
-- ---------------------------------------------------------------------------

/-- C3: a fetch that throws a structured error carrying a closed reason code
yields a result that preserves that reason, with status `"no-data"` exactly
when the reason is `no_credentials` or `token_expired` and `"error"` for
every other reason — for each of the four provider fetchers (for copilot,
provided a token was found, since otherwise no fetch is attempted). -/
theorem structuredError_reason_and_status (r : ErrorReason) (m : String)
    (now : ℤ) (tok : Option String) (htok : tokenIsFalsy tok = false) :
    ((claudeFetcherResult (FetchOutcome.thrown (ThrownError.structured r m)) now).reason
        = some r ∧
     (claudeFetcherResult (FetchOutcome.thrown (ThrownError.structured r m)) now).status
        = (if r = ErrorReason.no_credentials ∨ r = ErrorReason.token_expired
           then AgentStatus.noData else AgentStatus.error)) ∧
    ((geminiFetcherResult (FetchOutcome.thrown (ThrownError.structured r m)) now).reason
        = some r ∧
     (geminiFetcherResult (FetchOutcome.thrown (ThrownError.structured r m)) now).status
        = (if r = ErrorReason.no_credentials ∨ r = ErrorReason.token_expired
           then AgentStatus.noData else AgentStatus.error)) ∧
    ((copilotFetcherResult tok (FetchOutcome.thrown (ThrownError.structured r m)) now).reason
        = some r ∧
     (copilotFetcherResult tok (FetchOutcome.thrown (ThrownError.structured r m)) now).status
        = (if r = ErrorReason.no_credentials ∨ r = ErrorReason.token_expired
           then AgentStatus.noData else AgentStatus.error)) ∧
    ((codexFetcherResult (FetchOutcome.thrown (ThrownError.structured r m)) now).reason
        = some r ∧
     (codexFetcherResult (FetchOutcome.thrown (ThrownError.structured r m)) now).status
        = (if r = ErrorReason.no_credentials ∨ r = ErrorReason.token_expired
           then AgentStatus.noData else AgentStatus.error)) := by
  refine ⟨⟨rfl, rfl⟩, ⟨rfl, rfl⟩, ?_, ⟨rfl, rfl⟩⟩
  rw [copilotFetcherResult_of_thrown tok (ThrownError.structured r m) now htok]
  exact ⟨rfl, rfl⟩

/-- Witness for C3: a structured `timeout` error through the copilot fetcher
with a present token keeps its reason and maps to status `"error"`. -/
theorem structuredError_reason_and_status_witness :
    tokenIsFalsy (some "tok") = false ∧
    (copilotFetcherResult (some "tok")
        (FetchOutcome.thrown (ThrownError.structured ErrorReason.timeout "boom")) 0).reason
      = some ErrorReason.timeout ∧
    (copilotFetcherResult (some "tok")
        (FetchOutcome.thrown (ThrownError.structured ErrorReason.timeout "boom")) 0).status
      = AgentStatus.error := by
  refine ⟨by decide, ?_, ?_⟩
  · exact (structuredError_reason_and_status ErrorReason.timeout "boom" 0 (some "tok")
      (by decide)).2.2.1.1
  · have h := (structuredError_reason_and_status ErrorReason.timeout "boom" 0 (some "tok")
      (by decide)).2.2.1.2
    simpa using h

-- ---------------------------------------------------------------------------
-- C4
-- ---------------------------------------------------------------------------

/-- Counterexample for C4: a provider fetch resolving to an
explicitly-empty value does not yield `reason == null` — the claude fetcher
sets `reason = "unknown"` — and for the copilot fetcher it does not even
yield status `"no-data"` but `"error"`. -/
theorem emptyFetch_not_null_reason :
    (claudeFetcherResult (FetchOutcome.success none) 0).status = AgentStatus.noData ∧
    (claudeFetcherResult (FetchOutcome.success none) 0).reason ≠ none ∧
    (copilotFetcherResult (some "tok") (FetchOutcome.success none) 0).status
      = AgentStatus.error := by
  refine ⟨rfl, by decide, by decide⟩

/-- C4 (amended): a successful fetch resolving to an explicitly-empty value
yields, for the claude, gemini and codex fetchers, status `"no-data"` with
`reason = "unknown"` (display `"no data (unknown)"`), and for the copilot
fetcher (when a token was found) status `"error"` with
`reason = "parse_error"`. -/
theorem emptyFetch_result (now : ℤ) (tok : Option String)
    (htok : tokenIsFalsy tok = false) :
    claudeFetcherResult (FetchOutcome.success none) now =
      { status := AgentStatus.noData, data := none,
        reason := some ErrorReason.unknown, error := none,
        display := "no data (unknown)" } ∧
    geminiFetcherResult (FetchOutcome.success none) now =
      { status := AgentStatus.noData, data := none,
        reason := some ErrorReason.unknown, error := none,
        display := "no data (unknown)" } ∧
    codexFetcherResult (FetchOutcome.success none) now =
      { status := AgentStatus.noData, data := none,
        reason := some ErrorReason.unknown, error := none,
        display := "no data (unknown)" } ∧
    copilotFetcherResult tok (FetchOutcome.success none) now =
      { status := AgentStatus.error, data := none,
        reason := some ErrorReason.parse_error,
        error := some "Copilot API response missing quota fields.",
        display := "error (parse_error)" } :=
  ⟨rfl, rfl, rfl, copilotFetcherResult_of_success_none tok now htok⟩

/-- Witness for C4's amended claim at a concrete time and token. -/
theorem emptyFetch_result_witness :
    tokenIsFalsy (some "tok") = false ∧
    copilotFetcherResult (some "tok") (FetchOutcome.success none) 0 =
      { status := AgentStatus.error, data := none,
        reason := some ErrorReason.parse_error,
        error := some "Copilot API response missing quota fields.",
        display := "error (parse_error)" } :=
  ⟨by decide, (emptyFetch_result 0 (some "tok") (by decide)).2.2.2⟩

-- ---------------------------------------------------------------------------
-- C8
-- ---------------------------------------------------------------------------

/-- C8: a codex row built from an `ok` result whose snapshot classifies into
a short window at 0% used and a long window at 100% used has urgency
`WAIT_RESET`, takes its limit label from the long window (`"7d"`), and its
details text lists the long window's line before the short window's line
(most-constraining first). -/
theorem buildCodexRow_wait_reset_long_first
    (res : QuotaResult RateLimitSnapshot) (d1 d2 t1 t2 : ℚ) (now : ℤ)
    (hd : d1 < d2)
    (hdata : res.data = some
      { primary := some { used_percent := some (JsNum.fin 0),
                          windowDurationMins := some (JsNum.fin d1),
                          resetsAt := some (JsNum.fin t1) },
        secondary := some { used_percent := some (JsNum.fin 100),
                            windowDurationMins := some (JsNum.fin d2),
                            resetsAt := some (JsNum.fin t2) } })
    (hok : res.status = AgentStatus.ok) :
    buildCodexRow res now =
      { status := HumanStatus.WAIT_RESET
        limit := "7d"
        details := formatWindowDetails
          [⟨"7d", 100, jsTrunc (t2 * 1000)⟩, ⟨"5h", 0, jsTrunc (t1 * 1000)⟩] now } := by
  have hnorm1 : normalizeRateLimitWindow
      { used_percent := some (JsNum.fin 0),
        windowDurationMins := some (JsNum.fin d1),
        resetsAt := some (JsNum.fin t1) } now =
      some ⟨0, some d1, some (jsTrunc (t1 * 1000))⟩ := by
    simp [normalizeRateLimitWindow, resolveWindowMinutes, resolveResetsAt]
  have hnorm2 : normalizeRateLimitWindow
      { used_percent := some (JsNum.fin 100),
        windowDurationMins := some (JsNum.fin d2),
        resetsAt := some (JsNum.fin t2) } now =
      some ⟨100, some d2, some (jsTrunc (t2 * 1000))⟩ := by
    simp [normalizeRateLimitWindow, resolveWindowMinutes, resolveResetsAt]
  have hstatus : rateLimitSnapshotToStatus
      { primary := some { used_percent := some (JsNum.fin 0),
                          windowDurationMins := some (JsNum.fin d1),
                          resetsAt := some (JsNum.fin t1) },
        secondary := some { used_percent := some (JsNum.fin 100),
                            windowDurationMins := some (JsNum.fin d2),
                            resetsAt := some (JsNum.fin t2) } } now =
      some ⟨[⟨UsageWindowKey.fiveHour, "5h", 100, jsTrunc (t1 * 1000)⟩,
             ⟨UsageWindowKey.weekly, "7d", 0, jsTrunc (t2 * 1000)⟩], none, ""⟩ := by
    rw [rateLimitSnapshotToStatus]
    rw [show snapshotCandidates
        { primary := some { used_percent := some (JsNum.fin 0),
                            windowDurationMins := some (JsNum.fin d1),
                            resetsAt := some (JsNum.fin t1) },
          secondary := some { used_percent := some (JsNum.fin 100),
                              windowDurationMins := some (JsNum.fin d2),
                              resetsAt := some (JsNum.fin t2) } } now =
        [⟨CandidateSource.primary, ⟨0, some d1, some (jsTrunc (t1 * 1000))⟩⟩,
         ⟨CandidateSource.secondary, ⟨100, some d2, some (jsTrunc (t2 * 1000))⟩⟩]
      from by simp [snapshotCandidates, hnorm1, hnorm2]]
    rw [show assignSlots
        [⟨CandidateSource.primary, ⟨0, some d1, some (jsTrunc (t1 * 1000))⟩⟩,
         ⟨CandidateSource.secondary, ⟨100, some d2, some (jsTrunc (t2 * 1000))⟩⟩] =
        (some ⟨CandidateSource.primary, ⟨0, some d1, some (jsTrunc (t1 * 1000))⟩⟩,
         some ⟨CandidateSource.secondary, ⟨100, some d2, some (jsTrunc (t2 * 1000))⟩⟩)
      from by simp [assignSlots, le_of_lt hd]]
    norm_num [clampPercent]
  rw [buildCodexRow, hdata]
  rw [show (match some
      ({ primary := some { used_percent := some (JsNum.fin 0),
                           windowDurationMins := some (JsNum.fin d1),
                           resetsAt := some (JsNum.fin t1) },
         secondary := some { used_percent := some (JsNum.fin 100),
                             windowDurationMins := some (JsNum.fin d2),
                             resetsAt := some (JsNum.fin t2) } } : RateLimitSnapshot) with
      | some d => rateLimitSnapshotToStatus d now
      | none => none) =
      some (⟨[⟨UsageWindowKey.fiveHour, "5h", 100, jsTrunc (t1 * 1000)⟩,
              ⟨UsageWindowKey.weekly, "7d", 0, jsTrunc (t2 * 1000)⟩], none, ""⟩ : CodexStatus)
    from hstatus]
  norm_num [jsRound, clampPercentRow, sortMostConstraining, jsSortByAfter,
    insertByAfter, compareMostConstraining, deriveStatusFromResult, hok,
    deriveStatusFromUsedPercent]
  simp

/-- Witness for C8 at concrete durations and reset times. -/
theorem buildCodexRow_wait_reset_long_first_witness :
    buildCodexRow
      { status := AgentStatus.ok
        data := some
          { primary := some { used_percent := some (JsNum.fin 0),
                              windowDurationMins := some (JsNum.fin 300),
                              resetsAt := some (JsNum.fin 1000) },
            secondary := some { used_percent := some (JsNum.fin 100),
                                windowDurationMins := some (JsNum.fin 10080),
                                resetsAt := some (JsNum.fin 2000) } }
        reason := none
        error := none
        display := "" } 0 =
      { status := HumanStatus.WAIT_RESET
        limit := "7d"
        details := formatWindowDetails
          [⟨"7d", 100, jsTrunc ((2000 : ℚ) * 1000)⟩,
           ⟨"5h", 0, jsTrunc ((1000 : ℚ) * 1000)⟩] 0 } :=
  buildCodexRow_wait_reset_long_first _ 300 10080 1000 2000 0 (by norm_num) rfl rfl

-- ---------------------------------------------------------------------------
-- Helper lemmas about the orchestration fold
-- ---------------------------------------------------------------------------

/-- The result-assignment loop never touches the summary. -/
theorem foldl_setAgentResult_summary (env : FetchEnv) (agents : List Agent)
    (acc : AllRateLimits) :
    (agents.foldl (setAgentResult env) acc).summary = acc.summary := by
  induction agents generalizing acc with
  | nil => rfl
  | cons a rest ih => rw [List.foldl_cons, ih]; cases a <;> rfl

/-- The claude entry after the result-assignment loop. -/
theorem foldl_setAgentResult_claude (env : FetchEnv) (agents : List Agent)
    (acc : AllRateLimits) :
    (agents.foldl (setAgentResult env) acc).claude =
      if Agent.claude ∈ agents then claudeResult env else acc.claude := by
  induction agents generalizing acc with
  | nil => simp
  | cons a rest ih =>
    rw [List.foldl_cons, ih]
    cases a <;> simp [setAgentResult, List.mem_cons]

/-- The gemini entry after the result-assignment loop. -/
theorem foldl_setAgentResult_gemini (env : FetchEnv) (agents : List Agent)
    (acc : AllRateLimits) :
    (agents.foldl (setAgentResult env) acc).gemini =
      if Agent.gemini ∈ agents then geminiResult env else acc.gemini := by
  induction agents generalizing acc with
  | nil => simp
  | cons a rest ih =>
    rw [List.foldl_cons, ih]
    cases a <;> simp [setAgentResult, List.mem_cons]

/-- The copilot entry after the result-assignment loop. -/
theorem foldl_setAgentResult_copilot (env : FetchEnv) (agents : List Agent)
    (acc : AllRateLimits) :
    (agents.foldl (setAgentResult env) acc).copilot =
      if Agent.copilot ∈ agents then copilotResult env else acc.copilot := by
  induction agents generalizing acc with
  | nil => simp
  | cons a rest ih =>
    rw [List.foldl_cons, ih]
    cases a <;> simp [setAgentResult, List.mem_cons]

/-- The codex entry after the result-assignment loop. -/
theorem foldl_setAgentResult_codex (env : FetchEnv) (agents : List Agent)
    (acc : AllRateLimits) :
    (agents.foldl (setAgentResult env) acc).codex =
      if Agent.codex ∈ agents then codexResult env else acc.codex := by
  induction agents generalizing acc with
  | nil => simp
  | cons a rest ih =>
    rw [List.foldl_cons, ih]
    cases a <;> simp [setAgentResult, List.mem_cons]

/-- A max-fold exceeds a bound exactly when the seed or some element
does. -/
theorem foldl_max_ge_iff (n : ℕ) (l : List ℕ) (init : ℕ) :
    n ≤ l.foldl max init ↔ n ≤ init ∨ ∃ x ∈ l, n ≤ x := by
  induction l generalizing init with
  | nil => simp
  | cons a t ih =>
    rw [List.foldl_cons, ih]
    constructor
    · rintro (h | h)
      · rcases le_max_iff.mp h with h' | h'
        · exact Or.inl h'
        · exact Or.inr ⟨a, by simp, h'⟩
      · rcases h with ⟨x, hx, hnx⟩
        exact Or.inr ⟨x, by simp [hx], hnx⟩
    · rintro (h | ⟨x, hx, hnx⟩)
      · exact Or.inl (le_max_iff.mpr (Or.inl h))
      · rcases List.mem_cons.mp hx with rfl | hx'
        · exact Or.inl (le_max_iff.mpr (Or.inr hnx))
        · exact Or.inr ⟨x, hx', hnx⟩

/-- `maxStress` exceeds a bound exactly when some fetched display holds a
large enough percent token (or the bound is trivial). -/
theorem maxStress_ge_iff (env : FetchEnv) (agents : List Agent) (n : ℕ) :
    n ≤ maxStress env agents ↔
      n ≤ 0 ∨ ∃ a ∈ agents, ∃ x ∈ percentTokens (displayOf env a), n ≤ x := by
  have hgen : ∀ (l : List Agent) (acc : ℕ),
      n ≤ l.foldl (fun acc a => (percentTokens (displayOf env a)).foldl max acc) acc ↔
        n ≤ acc ∨ ∃ a ∈ l, ∃ x ∈ percentTokens (displayOf env a), n ≤ x := by
    intro l
    induction l with
    | nil => intro acc; simp
    | cons a t ih =>
      intro acc
      rw [List.foldl_cons, ih, foldl_max_ge_iff]
      constructor
      · rintro ((h | ⟨x, hx, hnx⟩) | ⟨b, hb, hx⟩)
        · exact Or.inl h
        · exact Or.inr ⟨a, by simp, x, hx, hnx⟩
        · exact Or.inr ⟨b, by simp [hb], hx⟩
      · rintro (h | ⟨b, hb, x, hx, hnx⟩)
        · exact Or.inl (Or.inl h)
        · rcases List.mem_cons.mp hb with rfl | hb'
          · exact Or.inl (Or.inr ⟨x, hx, hnx⟩)
          · exact Or.inr ⟨b, hb', x, hx, hnx⟩
  exact hgen agents 0

-- ---------------------------------------------------------------------------
-- C2
-- ---------------------------------------------------------------------------

/-- C2: the global summary of `fetchAllRateLimits` is `critical` exactly when
some entry of the returned map has status `"error"`; otherwise `warning`
exactly when the largest percent token in the returned displays is at least
80; otherwise `healthy`. -/
theorem fetchAllRateLimits_summary_characterization
    (agentsOpt : Option (List Agent)) (env : FetchEnv) :
    ((fetchAllRateLimits agentsOpt env).summary.status = SummaryStatus.critical ↔
       anyErrorEntry (fetchAllRateLimits agentsOpt env)) ∧
    ((fetchAllRateLimits agentsOpt env).summary.status = SummaryStatus.warning ↔
       ¬ anyErrorEntry (fetchAllRateLimits agentsOpt env) ∧
         80 ≤ maxDisplayPercent (fetchAllRateLimits agentsOpt env)) ∧
    ((fetchAllRateLimits agentsOpt env).summary.status = SummaryStatus.healthy ↔
       ¬ anyErrorEntry (fetchAllRateLimits agentsOpt env) ∧
         maxDisplayPercent (fetchAllRateLimits agentsOpt env) < 80) := by
  set A := agentsOpt.getD supportedAgents with hA
  set base := A.foldl (setAgentResult env) initialAllRateLimits with hbase
  have hcl := foldl_setAgentResult_claude env A initialAllRateLimits
  have hgm := foldl_setAgentResult_gemini env A initialAllRateLimits
  have hcp := foldl_setAgentResult_copilot env A initialAllRateLimits
  have hcx := foldl_setAgentResult_codex env A initialAllRateLimits
  rw [← hbase] at hcl hgm hcp hcx
  -- the error bridge
  have herr : anyErrorEntry base ↔ ∃ a ∈ A, statusOf env a = AgentStatus.error := by
    constructor
    · rintro (h | h | h | h)
      · rw [hcl] at h
        by_cases hm : Agent.claude ∈ A
        · rw [if_pos hm] at h; exact ⟨Agent.claude, hm, h⟩
        · rw [if_neg hm] at h; exact absurd h (by decide)
      · rw [hgm] at h
        by_cases hm : Agent.gemini ∈ A
        · rw [if_pos hm] at h; exact ⟨Agent.gemini, hm, h⟩
        · rw [if_neg hm] at h; exact absurd h (by decide)
      · rw [hcp] at h
        by_cases hm : Agent.copilot ∈ A
        · rw [if_pos hm] at h; exact ⟨Agent.copilot, hm, h⟩
        · rw [if_neg hm] at h; exact absurd h (by decide)
      · rw [hcx] at h
        by_cases hm : Agent.codex ∈ A
        · rw [if_pos hm] at h; exact ⟨Agent.codex, hm, h⟩
        · rw [if_neg hm] at h; exact absurd h (by decide)
    · rintro ⟨a, ha, hstat⟩
      cases a with
      | claude => exact Or.inl (by rw [hcl, if_pos ha]; exact hstat)
      | gemini => exact Or.inr (Or.inl (by rw [hgm, if_pos ha]; exact hstat))
      | copilot => exact Or.inr (Or.inr (Or.inl (by rw [hcp, if_pos ha]; exact hstat)))
      | codex => exact Or.inr (Or.inr (Or.inr (by rw [hcx, if_pos ha]; exact hstat)))
  have hcrit : 0 < criticalCount env A ↔ anyErrorEntry base := by
    rw [criticalCount, List.countP_pos_iff, herr]
    simp
  -- the percent-token bridge
  have htokc : percentTokens base.claude.display =
      if Agent.claude ∈ A then percentTokens (displayOf env Agent.claude) else [] := by
    by_cases hm : Agent.claude ∈ A
    · rw [hcl, if_pos hm, if_pos hm]; rfl
    · rw [hcl, if_neg hm, if_neg hm]; rfl
  have htokg : percentTokens base.gemini.display =
      if Agent.gemini ∈ A then percentTokens (displayOf env Agent.gemini) else [] := by
    by_cases hm : Agent.gemini ∈ A
    · rw [hgm, if_pos hm, if_pos hm]; rfl
    · rw [hgm, if_neg hm, if_neg hm]; rfl
  have htokp : percentTokens base.copilot.display =
      if Agent.copilot ∈ A then percentTokens (displayOf env Agent.copilot) else [] := by
    by_cases hm : Agent.copilot ∈ A
    · rw [hcp, if_pos hm, if_pos hm]; rfl
    · rw [hcp, if_neg hm, if_neg hm]; rfl
  have htokx : percentTokens base.codex.display =
      if Agent.codex ∈ A then percentTokens (displayOf env Agent.codex) else [] := by
    by_cases hm : Agent.codex ∈ A
    · rw [hcx, if_pos hm, if_pos hm]; rfl
    · rw [hcx, if_neg hm, if_neg hm]; rfl
  have hms : 80 ≤ maxStress env A ↔ 80 ≤ maxDisplayPercent base := by
    rw [maxStress_ge_iff, maxDisplayPercent, foldl_max_ge_iff]
    constructor
    · rintro (h | ⟨a, ha, x, hx, hnx⟩)
      · omega
      · refine Or.inr ⟨x, ?_, hnx⟩
        cases a with
        | claude => simp [htokc, if_pos ha, hx]
        | gemini => simp [htokg, if_pos ha, hx]
        | copilot => simp [htokp, if_pos ha, hx]
        | codex => simp [htokx, if_pos ha, hx]
    · rintro (h | ⟨x, hx, hnx⟩)
      · omega
      · rw [List.mem_append, List.mem_append, List.mem_append] at hx
        rcases hx with ((hx | hx) | hx) | hx
        · rw [htokc] at hx
          by_cases hm : Agent.claude ∈ A
          · rw [if_pos hm] at hx; exact Or.inr ⟨Agent.claude, hm, x, hx, hnx⟩
          · rw [if_neg hm] at hx; exact absurd hx (List.not_mem_nil x)
        · rw [htokg] at hx
          by_cases hm : Agent.gemini ∈ A
          · rw [if_pos hm] at hx; exact Or.inr ⟨Agent.gemini, hm, x, hx, hnx⟩
          · rw [if_neg hm] at hx; exact absurd hx (List.not_mem_nil x)
        · rw [htokp] at hx
          by_cases hm : Agent.copilot ∈ A
          · rw [if_pos hm] at hx; exact Or.inr ⟨Agent.copilot, hm, x, hx, hnx⟩
          · rw [if_neg hm] at hx; exact absurd hx (List.not_mem_nil x)
        · rw [htokx] at hx
          by_cases hm : Agent.codex ∈ A
          · rw [if_pos hm] at hx; exact Or.inr ⟨Agent.codex, hm, x, hx, hnx⟩
          · rw [if_neg hm] at hx; exact absurd hx (List.not_mem_nil x)
  -- now split on the summary branches
  have hRdef : fetchAllRateLimits agentsOpt env =
      (if 0 < criticalCount env A then
        { base with
            summary :=
              ⟨SummaryStatus.critical,
               toString (criticalCount env A) ++
                 " agent(s) failed or are at 100% capacity."⟩ }
      else if 80 ≤ maxStress env A then
        { base with
            summary :=
              ⟨SummaryStatus.warning,
               "Usage is high (up to " ++ toString (maxStress env A) ++ "%)."⟩ }
      else base) := by
    rw [fetchAllRateLimits, ← hA, ← hbase]
  by_cases hc : 0 < criticalCount env A
  · have herrR : anyErrorEntry (fetchAllRateLimits agentsOpt env) := by
      rw [hRdef, if_pos hc]
      exact hcrit.mp hc
    rw [hRdef, if_pos hc]
    refine ⟨⟨fun _ => ?_, fun _ => rfl⟩, ⟨fun h => (nomatch h), fun ⟨hna, _⟩ => ?_⟩,
            ⟨fun h => (nomatch h), fun ⟨hna, _⟩ => ?_⟩⟩
    · rw [hRdef, if_pos hc] at herrR; exact herrR
    · rw [hRdef, if_pos hc] at herrR; exact absurd herrR hna
    · rw [hRdef, if_pos hc] at herrR; exact absurd herrR hna
  · have herrR : ¬ anyErrorEntry (fetchAllRateLimits agentsOpt env) := by
      intro h
      apply hc
      apply hcrit.mpr
      by_cases hm80 : 80 ≤ maxStress env A
      · rw [hRdef, if_neg hc, if_pos hm80] at h; exact h
      · rw [hRdef, if_neg hc, if_neg hm80] at h; exact h
    by_cases hm80 : 80 ≤ maxStress env A
    · rw [hRdef, if_neg hc, if_pos hm80]
      have hmaxR : 80 ≤ maxDisplayPercent base := hms.mp hm80
      refine ⟨⟨fun h => (nomatch h), fun he => ?_⟩,
              ⟨fun _ => ⟨?_, ?_⟩, fun _ => rfl⟩,
              ⟨fun h => (nomatch h), fun ⟨_, hlt⟩ => ?_⟩⟩
      · exact absurd he (by rw [hRdef, if_neg hc, if_pos hm80] at herrR; exact herrR)
      · rw [hRdef, if_neg hc, if_pos hm80] at herrR; exact herrR
      · exact hmaxR
      · exact absurd hmaxR (not_le.mpr hlt)
    · rw [hRdef, if_neg hc, if_neg hm80]
      have hmaxR : ¬ 80 ≤ maxDisplayPercent base := fun h => hm80 (hms.mpr h)
      have hsum : base.summary = ⟨SummaryStatus.healthy, "All agents are within limits."⟩ :=
        foldl_setAgentResult_summary env A initialAllRateLimits
      refine ⟨⟨fun h => ?_, fun he => ?_⟩, ⟨fun h => ?_, fun ⟨_, h80⟩ => ?_⟩,
              ⟨fun _ => ⟨?_, ?_⟩, fun _ => ?_⟩⟩
      · rw [hsum] at h; exact (nomatch h)
      · exact absurd he (by rw [hRdef, if_neg hc, if_neg hm80] at herrR; exact herrR)
      · rw [hsum] at h; exact (nomatch h)
      · exact absurd h80 hmaxR
      · rw [hRdef, if_neg hc, if_neg hm80] at herrR; exact herrR
      · omega
      · rw [hsum]

/-- Witness for C2 on a concrete run: a single fetched agent whose fetch
threw a plain error yields an error entry and a critical summary. -/
theorem fetchAllRateLimits_summary_characterization_witness :
    anyErrorEntry
      (fetchAllRateLimits (some [Agent.gemini])
        { claudeOutcome := FetchOutcome.success none
          geminiOutcome := FetchOutcome.thrown (ThrownError.plain "boom")
          copilotToken := none
          copilotOutcome := FetchOutcome.success none
          codexOutcome := FetchOutcome.success none
          now := 0 }) ∧
    (fetchAllRateLimits (some [Agent.gemini])
        { claudeOutcome := FetchOutcome.success none
          geminiOutcome := FetchOutcome.thrown (ThrownError.plain "boom")
          copilotToken := none
          copilotOutcome := FetchOutcome.success none
          codexOutcome := FetchOutcome.success none
          now := 0 }).summary.status = SummaryStatus.critical := by
  have hae : anyErrorEntry
      (fetchAllRateLimits (some [Agent.gemini])
        { claudeOutcome := FetchOutcome.success none
          geminiOutcome := FetchOutcome.thrown (ThrownError.plain "boom")
          copilotToken := none
          copilotOutcome := FetchOutcome.success none
          codexOutcome := FetchOutcome.success none
          now := 0 }) := by
    apply Or.inr
    apply Or.inl
    decide
  exact ⟨hae,
    ((fetchAllRateLimits_summary_characterization (some [Agent.gemini]) _).1).mpr hae⟩

-- ---------------------------------------------------------------------------
-- C10
-- ---------------------------------------------------------------------------

/-- C10: with an explicit agents list, every supported agent outside the list
keeps exactly the skipped placeholder as its entry; any entry differing from
the placeholder belongs to a requested agent; and the whole returned value
depends only on the clock and on the fetch inputs of the requested agents —
the other agents' fetchers are never consulted. -/
theorem fetchAllRateLimits_frame (agents : List Agent) (env : FetchEnv) :
    (∀ a : Agent, a ∉ agents →
       entryIsSkipped (fetchAllRateLimits (some agents) env) a) ∧
    (∀ a : Agent, ¬ entryIsSkipped (fetchAllRateLimits (some agents) env) a →
       a ∈ agents) ∧
    (∀ env' : FetchEnv, envAgreesOn agents env env' →
       fetchAllRateLimits (some agents) env = fetchAllRateLimits (some agents) env') := by
  have hsplit : ∃ s, fetchAllRateLimits (some agents) env =
      { agents.foldl (setAgentResult env) initialAllRateLimits with summary := s } := by
    rw [fetchAllRateLimits]
    split
    · exact ⟨_, rfl⟩
    · split
      · exact ⟨_, rfl⟩
      · exact ⟨_, rfl⟩
  obtain ⟨s, hs⟩ := hsplit
  have hskip : ∀ a : Agent, a ∉ agents →
      entryIsSkipped (fetchAllRateLimits (some agents) env) a := by
    intro a ha
    cases a with
    | claude =>
      show (fetchAllRateLimits (some agents) env).claude = DEFAULT_SKIPPED_RESULT _
      rw [hs]
      simp [foldl_setAgentResult_claude, ha, initialAllRateLimits]
    | gemini =>
      show (fetchAllRateLimits (some agents) env).gemini = DEFAULT_SKIPPED_RESULT _
      rw [hs]
      simp [foldl_setAgentResult_gemini, ha, initialAllRateLimits]
    | copilot =>
      show (fetchAllRateLimits (some agents) env).copilot = DEFAULT_SKIPPED_RESULT _
      rw [hs]
      simp [foldl_setAgentResult_copilot, ha, initialAllRateLimits]
    | codex =>
      show (fetchAllRateLimits (some agents) env).codex = DEFAULT_SKIPPED_RESULT _
      rw [hs]
      simp [foldl_setAgentResult_codex, ha, initialAllRateLimits]
  refine ⟨hskip, ?_, ?_⟩
  · intro a h
    by_contra hmem
    exact h (hskip a hmem)
  · intro env' hag
    obtain ⟨hnow, hclO, hgmO, hcpO, hcxO⟩ := hag
    have hclR : Agent.claude ∈ agents → claudeResult env = claudeResult env' :=
      fun h => by rw [claudeResult, claudeResult, hclO h, hnow]
    have hgmR : Agent.gemini ∈ agents → geminiResult env = geminiResult env' :=
      fun h => by rw [geminiResult, geminiResult, hgmO h, hnow]
    have hcpR : Agent.copilot ∈ agents → copilotResult env = copilotResult env' :=
      fun h => by
        rw [copilotResult, copilotResult, (hcpO h).1, (hcpO h).2, hnow]
    have hcxR : Agent.codex ∈ agents → codexResult env = codexResult env' :=
      fun h => by rw [codexResult, codexResult, hcxO h, hnow]
    have hstat : ∀ a ∈ agents, statusOf env a = statusOf env' a := by
      intro a ha
      cases a with
      | claude => show (claudeResult env).status = _; rw [hclR ha]; rfl
      | gemini => show (geminiResult env).status = _; rw [hgmR ha]; rfl
      | copilot => show (copilotResult env).status = _; rw [hcpR ha]; rfl
      | codex => show (codexResult env).status = _; rw [hcxR ha]; rfl
    have hdisp : ∀ a ∈ agents, displayOf env a = displayOf env' a := by
      intro a ha
      cases a with
      | claude => show (claudeResult env).display = _; rw [hclR ha]; rfl
      | gemini => show (geminiResult env).display = _; rw [hgmR ha]; rfl
      | copilot => show (copilotResult env).display = _; rw [hcpR ha]; rfl
      | codex => show (codexResult env).display = _; rw [hcxR ha]; rfl
    have hbase_eq : agents.foldl (setAgentResult env) initialAllRateLimits =
        agents.foldl (setAgentResult env') initialAllRateLimits := by
      ext1
      · rw [foldl_setAgentResult_summary, foldl_setAgentResult_summary]
      · rw [foldl_setAgentResult_claude, foldl_setAgentResult_claude]
        by_cases hm : Agent.claude ∈ agents
        · rw [if_pos hm, if_pos hm, hclR hm]
        · rw [if_neg hm, if_neg hm]
      · rw [foldl_setAgentResult_gemini, foldl_setAgentResult_gemini]
        by_cases hm : Agent.gemini ∈ agents
        · rw [if_pos hm, if_pos hm, hgmR hm]
        · rw [if_neg hm, if_neg hm]
      · rw [foldl_setAgentResult_copilot, foldl_setAgentResult_copilot]
        by_cases hm : Agent.copilot ∈ agents
        · rw [if_pos hm, if_pos hm, hcpR hm]
        · rw [if_neg hm, if_neg hm]
      · rw [foldl_setAgentResult_codex, foldl_setAgentResult_codex]
        by_cases hm : Agent.codex ∈ agents
        · rw [if_pos hm, if_pos hm, hcxR hm]
        · rw [if_neg hm, if_neg hm]
    have hcrit_eq : criticalCount env agents = criticalCount env' agents := by
      rw [criticalCount, criticalCount]
      exact List.countP_congr (fun a ha => by rw [hstat a ha])
    have hms_eq : maxStress env agents = maxStress env' agents := by
      rw [maxStress, maxStress]
      have hgen : ∀ (l : List Agent), (∀ a ∈ l, displayOf env a = displayOf env' a) →
          ∀ acc : ℕ,
            l.foldl (fun acc a => (percentTokens (displayOf env a)).foldl max acc) acc =
            l.foldl (fun acc a => (percentTokens (displayOf env' a)).foldl max acc) acc := by
        intro l
        induction l with
        | nil => intro _ _; rfl
        | cons a t ih =>
          intro h acc
          rw [List.foldl_cons, List.foldl_cons, h a (by simp)]
          exact ih (fun b hb => h b (by simp [hb])) _
      exact hgen agents hdisp 0
    rw [fetchAllRateLimits, fetchAllRateLimits]
    simp only [Option.getD_some]
    rw [hbase_eq, hcrit_eq, hms_eq]

/-- Witness for C10: with only gemini requested, the claude entry is exactly
the skipped placeholder. -/
theorem fetchAllRateLimits_frame_witness :
    Agent.claude ∉ [Agent.gemini] ∧
    entryIsSkipped
      (fetchAllRateLimits (some [Agent.gemini])
        { claudeOutcome := FetchOutcome.success none
          geminiOutcome := FetchOutcome.thrown (ThrownError.plain "boom")
          copilotToken := none
          copilotOutcome := FetchOutcome.success none
          codexOutcome := FetchOutcome.success none
          now := 0 }) Agent.claude :=
  ⟨by decide,
    (fetchAllRateLimits_frame [Agent.gemini]
      { claudeOutcome := FetchOutcome.success none
        geminiOutcome := FetchOutcome.thrown (ThrownError.plain "boom")
        copilotToken := none
        copilotOutcome := FetchOutcome.success none
        codexOutcome := FetchOutcome.success none
        now := 0 }).1 Agent.claude (by decide)⟩

end AiQuota
